import Mathlib

set_option autoImplicit false

namespace Layabout

/-- A Python callable, modelled by its name and the list of its positional
parameter names, as observed through inspect.signature. -/
structure Callback where
  name : String
  params : List String
deriving DecidableEq

/-- Keyword arguments bound at registration time (a Python dict, modelled as
an insertion-ordered association list). -/
abbrev Kwargs := List (String × String)

/-- A registration stored in the handlers registry: the callback together with
its bound kwargs, mirroring the tuple appended by Layabout.handle. -/
abbrev Reg := Callback × Kwargs

/-- The handlers registry state: the insertion-ordered key/value entries of the
defaultdict(list) held in Layabout._handlers. -/
structure Handlers where
  entries : List (String × List Reg)
deriving DecidableEq

/-- Association-list lookup, first match wins (Python dict key lookup). -/
def alistLookup {α : Type} : List (String × α) → String → Option α
  | [], _ => none
  | (k, v) :: rest, key => if k = key then some v else alistLookup rest key

/-- The registration sequence observed for a key: the stored list, or the
defaultdict default [] when the key is absent. -/
def Handlers.getD (h : Handlers) (key : String) : List Reg :=
  (alistLookup h.entries key).getD []

/-- Python defaultdict getitem: return the stored list for a present key;
for an absent key, insert key mapped to [] at the end and return []. -/
def Handlers.getItem (h : Handlers) (key : String) : Handlers × List Reg :=
  match alistLookup h.entries key with
  | some v => (h, v)
  | none => (⟨h.entries ++ [(key, [])]⟩, [])

/-- The combined effect of self._handlers[key].append(r) on a defaultdict:
append r to the list stored at key, inserting the key at the end if absent. -/
def appendAt : List (String × List Reg) → String → Reg → List (String × List Reg)
  | [], key, r => [(key, [r])]
  | (k, v) :: rest, key, r =>
      if k = key then (k, v ++ [r]) :: rest else (k, v) :: appendAt rest key r

/-- Rendering of inspect.signature for a callable with the given positional
parameter names. -/
def signatureStr (params : List String) : String :=
  "(" ++ String.intercalate ", " params ++ ")"

/-- Layabout._format_parameter_error_message: format the missing-argument
error message for a callback accepting fewer than two parameters. -/
def format_parameter_error_message (name : String) (sig : String)
    (num_params : Nat) : String :=
  let data : String × Nat × String :=
    if num_params = 0 then ("s", 2, "\x27slack\x27 and \x27event\x27")
    else ("", 1, "\x27event\x27")
  name ++ sig ++ " missing " ++ toString data.2.1 ++
    " required positional argument" ++ data.1 ++ ": " ++ data.2.2

/-- Python kwargs or \x7b\x7d: None and the empty dict are falsy. -/
def kwargsOr : Option Kwargs → Kwargs
  | none => []
  | some d => if d = [] then [] else d

/-- The decorator body of Layabout.handle: validate that the callback accepts
at least two parameters, raising a TypeError message otherwise, then append
(fn, kwargs or \x7b\x7d) to the registry sequence for the given type. Returns
the registry state at return or raise time together with the raised message,
if any. -/
def handle (h : Handlers) (ty : String) (kwargs : Option Kwargs)
    (fn : Callback) : Handlers × Option String :=
  let num_params := fn.params.length
  if num_params < 2 then
    (h, some (format_parameter_error_message fn.name (signatureStr fn.params)
      num_params))
  else
    (⟨appendAt h.entries ty (fn, kwargsOr kwargs)⟩, none)

/-- Layabout.__init__: self._handlers = defaultdict(list), i.e. empty. -/
def initHandlers : Handlers := ⟨[]⟩

/-- An event: an opaque string-keyed mapping. -/
abbrev Event := List (String × String)

/-- The dispatch key of an event: event.get(..type.., default empty string). -/
def eventType (e : Event) : String :=
  (alistLookup e "type").getD ""

/-- The inner dispatch of Layabout.run for one event of the given type:
evaluate self._handlers[type_] + self._handlers[\x27*\x27] left to right
(each defaultdict getitem may insert a missing key), returning the resulting
registry state and the ordered list of registrations invoked. -/
def dispatchEvent (h : Handlers) (ty : String) : Handlers × List Reg :=
  let s := h.getItem ty
  let w := s.1.getItem "*"
  (w.1, s.2 ++ w.2)

/-- Observable actions of _SlackClientWrapper.connect_with_retry. -/
inductive ConnAction where
  | connectCall : ConnAction
  | sleepFor : ℚ → ConnAction
deriving DecidableEq

/-- The retry loop of connect_with_retry, for retry in range(1, retries + 1):
connect, return on success, otherwise sleep backoff(retry) and continue.
connectedAfter k is the value of is_connected() after the k-th connect call;
fuel is the number of loop iterations remaining. -/
def connectLoop (backoff : Nat → ℚ) (connectedAfter : Nat → Bool) :
    Nat → Nat → List ConnAction × Bool
  | _, 0 => ([], false)
  | retry, fuel + 1 =>
      if connectedAfter retry then ([ConnAction.connectCall], true)
      else
        let rest := connectLoop backoff connectedAfter (retry + 1) fuel
        (ConnAction.connectCall :: ConnAction.sleepFor (backoff retry) ::
          rest.1, rest.2)

/-- _SlackClientWrapper.connect_with_retry: the trace of connect calls and
sleeps, and whether it returned successfully (false means FailedConnection
was raised after exhausting all retries). connectedAfter 0 is the initial
is_connected() check, which short-circuits the loop when already true. -/
def connect_with_retry (retries : Nat) (backoff : Nat → ℚ)
    (connectedAfter : Nat → Bool) : List ConnAction × Bool :=
  if connectedAfter 0 then ([], true)
  else connectLoop backoff connectedAfter 1 retries

/-- Outcome of one inner.rtm_read() poll. -/
inductive RtmReadResult where
  | ok : List Event → RtmReadResult
  | wsConnectionClosed : RtmReadResult
  | timeoutError : RtmReadResult
  | otherError : String → RtmReadResult

/-- Errors that can escape _SlackClientWrapper.fetch_events. -/
inductive FetchError where
  | failedConnection : FetchError
  | wsConnectionClosed : FetchError
  | timeoutError : FetchError
  | other : String → FetchError
deriving DecidableEq

/-- _SlackClientWrapper.fetch_events: return the polled events; on
WebSocketConnectionClosedException or TimeoutError, reconnect via
connect_with_retry and return the empty list (propagating FailedConnection
when the reconnect exhausts its retries); any other error propagates
unchanged. -/
def fetch_events (read : RtmReadResult) (retries : Nat) (backoff : Nat → ℚ)
    (connectedAfter : Nat → Bool) : Except FetchError (List Event) :=
  match read with
  | .ok evs => .ok evs
  | .wsConnectionClosed =>
      if (connect_with_retry retries backoff connectedAfter).2 then .ok []
      else .error .failedConnection
  | .timeoutError =>
      if (connect_with_retry retries backoff connectedAfter).2 then .ok []
      else .error .failedConnection
  | .otherError n => .error (.other n)

/-- A SlackClient handle, carrying the token it was constructed with. -/
structure SlackClient where
  token : String
deriving DecidableEq

/-- A connector passed to Layabout.run: an EnvVar name, a plain token string,
or an existing SlackClient. -/
inductive Connector where
  | envVar : String → Connector
  | token : String → Connector
  | existing : SlackClient → Connector

/-- Outcome of connector resolution: a client, or a MissingSlackToken error
with its message. -/
inductive CreateResult where
  | client : SlackClient → CreateResult
  | missingSlackToken : String → CreateResult
deriving DecidableEq

/-- The _create_slack single-dispatch family: resolve a connector into a
SlackClient given the process environment. An EnvVar connector reads the
environment and fails on an absent or empty value; a token connector fails on
the empty string; an existing client is returned as-is. -/
def create_slack (env : String → Option String) : Connector → CreateResult
  | .envVar name =>
      match env name with
      | none => .missingSlackToken ("Could not acquire token from " ++ name)
      | some t =>
          if t = "" then
            .missingSlackToken ("Could not acquire token from " ++ name)
          else .client ⟨t⟩
  | .token t =>
      if t = "" then
        .missingSlackToken "The empty string is an invalid Slack API token"
      else .client ⟨t⟩
  | .existing c => .client c

/-- _truncated_exponential with the random jitter randrange(1000) made an
explicit argument: min(2 ^ retry + jitter, 64000) / 1000, computed in integer
milliseconds and converted to seconds. -/
def truncated_exponential (retry : Nat) (jitter : Nat) : ℚ :=
  ((min ((2 ^ retry) + jitter) 64000 : Nat) : ℚ) / 1000

/-- A sample two-parameter handler callback used in concrete instances. -/
def cbStar : Callback := ⟨"star_handler", ["slack", "event"]⟩

/-- A second sample two-parameter handler callback. -/
def cbHello : Callback := ⟨"hello_handler", ["slack", "event"]⟩

theorem getD_entries_append_empty (es : List (String × List Reg))
    (key t : String) :
    (alistLookup (es ++ [(key, ([] : List Reg))]) t).getD [] =
      (alistLookup es t).getD [] := by
  induction es with
  | nil => by_cases hk : key = t <;> simp [alistLookup, hk]
  | cons p rest ih =>
      obtain ⟨k, v⟩ := p
      by_cases hk : k = t <;> simp [alistLookup, hk, ih]

theorem Handlers.getItem_fst_getD (h : Handlers) (key t : String) :
    ((h.getItem key).1).getD t = h.getD t := by
  unfold Handlers.getItem
  cases hl : alistLookup h.entries key with
  | some v => rfl
  | none => simp [Handlers.getD, getD_entries_append_empty]

theorem Handlers.getItem_snd (h : Handlers) (key : String) :
    (h.getItem key).2 = h.getD key := by
  unfold Handlers.getItem Handlers.getD
  cases hl : alistLookup h.entries key <;> simp [hl]

theorem dispatchEvent_snd (h : Handlers) (ty : String) :
    (dispatchEvent h ty).2 = h.getD ty ++ h.getD "*" := by
  unfold dispatchEvent
  simp [Handlers.getItem_snd, Handlers.getItem_fst_getD]

theorem dispatchEvent_fst_getD (h : Handlers) (ty t : String) :
    ((dispatchEvent h ty).1).getD t = h.getD t := by
  unfold dispatchEvent
  simp [Handlers.getItem_fst_getD]

theorem alistLookup_appendAt_self (es : List (String × List Reg))
    (key : String) (r : Reg) :
    alistLookup (appendAt es key r) key =
      some ((alistLookup es key).getD [] ++ [r]) := by
  induction es with
  | nil => simp [appendAt, alistLookup]
  | cons p rest ih =>
      obtain ⟨k, v⟩ := p
      by_cases hk : k = key <;> simp [appendAt, alistLookup, hk, ih]

theorem alistLookup_appendAt_ne (es : List (String × List Reg))
    (key t : String) (r : Reg) (hne : key ≠ t) :
    alistLookup (appendAt es key r) t = alistLookup es t := by
  induction es with
  | nil => simp [appendAt, alistLookup, hne]
  | cons p rest ih =>
      obtain ⟨k, v⟩ := p
      by_cases hk : k = key
      · subst hk
        simp [appendAt, alistLookup, hne]
      · simp only [appendAt, hk, if_false, ite_false, if_neg hk]
        by_cases ht : k = t <;> simp [alistLookup, ht, ih]

/-- C1 is refuted on the code: for an event whose type field is the wildcard
itself, the run loop evaluates handlers[type_] + handlers[wildcard] with
type_ equal to the wildcard, so a single wildcard registration is invoked
twice for that event, not exactly once as the claim states. -/
theorem C1_counterexample :
    (dispatchEvent ⟨[("*", [(cbStar, [])])]⟩ (eventType [("type", "*")])).2
        = [(cbStar, []), (cbStar, [])] ∧
    ((dispatchEvent ⟨[("*", [(cbStar, [])])]⟩
        (eventType [("type", "*")])).2).count (cbStar, ([] : Kwargs)) = 2 ∧
    ¬ ((dispatchEvent ⟨[("*", [(cbStar, [])])]⟩
        (eventType [("type", "*")])).2).count (cbStar, ([] : Kwargs)) = 1 := by
  decide

/-- C1 (amended): for every event, the callbacks invoked are exactly the
concatenation of the handlers registered for the event type and those
registered for the wildcard, so each registration is invoked once per
occurrence in those two sequences; when the event type differs from the
wildcard a registration present once in their union runs exactly once, but
when the event type field is itself the wildcard every wildcard registration
runs exactly twice. -/
theorem C1_dispatch_invocations :
    (∀ (h : Handlers) (e : Event),
        (dispatchEvent h (eventType e)).2 =
          h.getD (eventType e) ++ h.getD "*") ∧
    (∀ (h : Handlers) (e : Event) (r : Reg),
        ((dispatchEvent h (eventType e)).2).count r =
          (h.getD (eventType e)).count r + (h.getD "*").count r) ∧
    (∀ (h : Handlers) (r : Reg),
        ((dispatchEvent h "*").2).count r = 2 * (h.getD "*").count r) := by
  refine ⟨fun h e => dispatchEvent_snd h (eventType e),
    fun h e r => ?_, fun h r => ?_⟩
  · rw [dispatchEvent_snd, List.count_append]
  · rw [dispatchEvent_snd, List.count_append, two_mul]

/-- C3 is refuted on the code: lookup evaluates the specific-type sequence
first and the wildcard sequence second, not wildcard first as the claim
states. -/
theorem C3_counterexample :
    (dispatchEvent ⟨[("message", [(cbHello, [])]), ("*", [(cbStar, [])])]⟩
        "message").2 = [(cbHello, []), (cbStar, [])] ∧
    (dispatchEvent ⟨[("message", [(cbHello, [])]), ("*", [(cbStar, [])])]⟩
        "message").2 ≠ [(cbStar, []), (cbHello, [])] := by
  decide

/-- C3 (amended): for every event type, the matching registrations are the
concatenation of the specific-type sequence followed by the wildcard
sequence, in that fixed order, and handlers are invoked in that order. -/
theorem C3_lookup_order (h : Handlers) (ty : String) :
    (dispatchEvent h ty).2 = h.getD ty ++ h.getD "*" :=
  dispatchEvent_snd h ty

/-- C9 is refuted on the code: the registry container is a defaultdict, and
the getitem calls performed while dispatching an event whose type has no
registered handlers insert fresh empty entries for that type and for the
wildcard, so dispatch does mutate the registry entries. -/
theorem C9_counterexample :
    (dispatchEvent initHandlers "goodbye").1.entries =
      [("goodbye", []), ("*", [])] ∧
    (dispatchEvent initHandlers "goodbye").1 ≠ initHandlers := by
  decide

/-- C9 (amended): the registry is created empty at construction, and while
dispatch may insert empty default entries for previously absent keys, it
never adds, removes, or reorders registrations: the registration sequence
observed for every type is unchanged by dispatching any event. -/
theorem C9_registry_preserved :
    initHandlers.entries = [] ∧
    ∀ (h : Handlers) (ty t : String),
      ((dispatchEvent h ty).1).getD t = h.getD t :=
  ⟨rfl, fun h ty t => dispatchEvent_fst_getD h ty t⟩

theorem connectLoop_always_fail (backoff : Nat → ℚ)
    (connectedAfter : Nat → Bool) (hfail : ∀ k, connectedAfter k = false)
    (fuel : Nat) :
    ∀ start : Nat,
      connectLoop backoff connectedAfter start fuel =
        (((List.range' start fuel).map (fun k =>
            [ConnAction.connectCall,
             ConnAction.sleepFor (backoff k)])).flatten, false) := by
  induction fuel with
  | zero =>
      intro start
      simp [connectLoop]
  | succ n ih =>
      intro start
      simp [connectLoop, hfail start, ih (start + 1), List.range'_succ]

theorem count_connectCall_join (backoff : Nat → ℚ) (l : List Nat) :
    ((l.map (fun k =>
        [ConnAction.connectCall,
         ConnAction.sleepFor (backoff k)])).flatten).count
      ConnAction.connectCall = l.length := by
  induction l with
  | nil => rfl
  | cons a l ih => simp [List.count_cons, List.count_append, ih]

/-- C2 is refuted on the code: with one retry and connection attempts that
always fail, connect_with_retry sleeps for backoff(1) after the final (and
only) attempt before raising FailedConnection, whereas the claim states that
no sleep happens after the final attempt. -/
theorem C2_counterexample :
    connect_with_retry 1 (fun k => (k : ℚ)) (fun _ => false) =
      ([ConnAction.connectCall, ConnAction.sleepFor 1], false) ∧
    (connect_with_retry 1 (fun k => (k : ℚ)) (fun _ => false)).1 ≠
      [ConnAction.connectCall] := by
  constructor
  · simp [connect_with_retry, connectLoop]
  · simp [connect_with_retry, connectLoop]

/-- C2 (amended): for retries N with a transport whose connection attempts
always fail, connect_with_retry performs exactly N connect calls and sleeps
for backoff(k) after every attempt k for k in 1..N — including after the
final attempt — before raising FailedConnection. -/
theorem C2_always_fail_trace (N : Nat) (backoff : Nat → ℚ)
    (connectedAfter : Nat → Bool) (hfail : ∀ k, connectedAfter k = false) :
    connect_with_retry N backoff connectedAfter =
      (((List.range' 1 N).map (fun k =>
          [ConnAction.connectCall,
           ConnAction.sleepFor (backoff k)])).flatten, false) ∧
    ((connect_with_retry N backoff connectedAfter).1).count
      ConnAction.connectCall = N := by
  have htrace : connect_with_retry N backoff connectedAfter =
      (((List.range' 1 N).map (fun k =>
          [ConnAction.connectCall,
           ConnAction.sleepFor (backoff k)])).flatten, false) := by
    unfold connect_with_retry
    simp [hfail 0, connectLoop_always_fail backoff connectedAfter hfail N 1]
  refine ⟨htrace, ?_⟩
  rw [htrace]
  simpa using count_connectCall_join backoff (List.range' 1 N)

/-- Witness for C2_always_fail_trace: two retries with a constant backoff of
seven seconds against attempts that always fail. -/
theorem C2_always_fail_trace_witness :
    connect_with_retry 2 (fun _ => (7 : ℚ)) (fun _ => false) =
      (((List.range' 1 2).map (fun _ =>
          [ConnAction.connectCall,
           ConnAction.sleepFor (7 : ℚ)])).flatten, false) ∧
    ((connect_with_retry 2 (fun _ => (7 : ℚ)) (fun _ => false)).1).count
      ConnAction.connectCall = 2 :=
  C2_always_fail_trace 2 (fun _ => (7 : ℚ)) (fun _ => false) (fun _ => rfl)

/-- C4: on a transport-level connection-closed or timeout signal, fetch_events
does not propagate that error: it reconnects via connect_with_retry,
returning an empty event list on success and propagating FailedConnection
when the retries are exhausted; a successful poll returns its events and any
other error class propagates unchanged. -/
theorem C4_fetch_events_error_handling (retries : Nat) (backoff : Nat → ℚ)
    (connectedAfter : Nat → Bool) :
    (∀ evs, fetch_events (RtmReadResult.ok evs) retries backoff
        connectedAfter = Except.ok evs) ∧
    (fetch_events RtmReadResult.wsConnectionClosed retries backoff
        connectedAfter =
      if (connect_with_retry retries backoff connectedAfter).2 then
        Except.ok [] else Except.error FetchError.failedConnection) ∧
    (fetch_events RtmReadResult.timeoutError retries backoff
        connectedAfter =
      if (connect_with_retry retries backoff connectedAfter).2 then
        Except.ok [] else Except.error FetchError.failedConnection) ∧
    (∀ n, fetch_events (RtmReadResult.otherError n) retries backoff
        connectedAfter = Except.error (FetchError.other n)) ∧
    (fetch_events RtmReadResult.wsConnectionClosed retries backoff
        connectedAfter ≠ Except.error FetchError.wsConnectionClosed) ∧
    (fetch_events RtmReadResult.timeoutError retries backoff
        connectedAfter ≠ Except.error FetchError.timeoutError) := by
  refine ⟨fun evs => rfl, rfl, rfl, fun n => rfl, ?_, ?_⟩ <;>
    · simp only [fetch_events]
      split <;> simp

theorem handle_success (h : Handlers) (ty : String) (k : Option Kwargs)
    (fn : Callback) (hp : 2 ≤ fn.params.length) :
    handle h ty k fn = (⟨appendAt h.entries ty (fn, kwargsOr k)⟩, none) := by
  have hnot : ¬ fn.params.length < 2 := by omega
  simp [handle, hnot]

theorem getD_appendAt_self (h : Handlers) (ty : String) (r : Reg) :
    Handlers.getD ⟨appendAt h.entries ty r⟩ ty = h.getD ty ++ [r] := by
  simp [Handlers.getD, alistLookup_appendAt_self]

theorem getD_appendAt_ne (h : Handlers) (ty t : String) (r : Reg)
    (hne : ty ≠ t) :
    Handlers.getD ⟨appendAt h.entries ty r⟩ t = h.getD t := by
  simp [Handlers.getD, alistLookup_appendAt_ne h.entries ty t r hne]

theorem format_message_zero (name : String) :
    format_parameter_error_message name (signatureStr []) 0 =
      name ++
        "() missing 2 required positional arguments: \x27slack\x27 and \x27event\x27" := by
  simp only [format_parameter_error_message, signatureStr, String.append_assoc]
  congr 1

theorem format_message_one (name p : String) :
    format_parameter_error_message name (signatureStr [p]) 1 =
      name ++ "(" ++ p ++
        ") missing 1 required positional argument: \x27event\x27" := by
  simp only [format_parameter_error_message, signatureStr, String.intercalate,
    String.append_assoc]
  congr 1

/-- C6: registering a zero-parameter callback fails with a message naming the
two missing parameters; a one-parameter callback fails with a message naming
the one missing event parameter; a callback accepting two or more parameters
succeeds and appends the pair of the callback and its bound kwargs (or the
empty dict) to the sequence for its type, leaving every other type
unchanged. -/
theorem C6_handle_arity :
    (∀ (h : Handlers) (t : String) (k : Option Kwargs) (fn : Callback),
      fn.params = [] →
      handle h t k fn = (h, some (fn.name ++
        "() missing 2 required positional arguments: \x27slack\x27 and \x27event\x27"))) ∧
    (∀ (h : Handlers) (t : String) (k : Option Kwargs) (fn : Callback)
        (p : String),
      fn.params = [p] →
      handle h t k fn = (h, some (fn.name ++ "(" ++ p ++
        ") missing 1 required positional argument: \x27event\x27"))) ∧
    (∀ (h : Handlers) (t : String) (k : Option Kwargs) (fn : Callback),
      2 ≤ fn.params.length →
      (handle h t k fn).2 = none ∧
      ((handle h t k fn).1).getD t = h.getD t ++ [(fn, kwargsOr k)] ∧
      ∀ t2, t ≠ t2 → ((handle h t k fn).1).getD t2 = h.getD t2) := by
  refine ⟨fun h t k fn hfn => ?_, fun h t k fn p hfn => ?_,
    fun h t k fn hp => ?_⟩
  · rw [show handle h t k fn = (h, some (format_parameter_error_message
        fn.name (signatureStr fn.params) fn.params.length)) by
        simp [handle, hfn]]
    rw [hfn]
    simp only [List.length_nil]
    rw [format_message_zero]
  · rw [show handle h t k fn = (h, some (format_parameter_error_message
        fn.name (signatureStr fn.params) fn.params.length)) by
        simp [handle, hfn]]
    rw [hfn]
    simp only [List.length_singleton]
    rw [format_message_one]
  · rw [handle_success h t k fn hp]
    exact ⟨rfl, getD_appendAt_self h t (fn, kwargsOr k),
      fun t2 hne => getD_appendAt_ne h t t2 (fn, kwargsOr k) hne⟩

/-- Witness for C6_handle_arity at concrete callbacks accepting zero, one and
two parameters, registered against the empty registry. -/
theorem C6_handle_arity_witness :
    handle initHandlers "message" none ⟨"zero_cb", []⟩ =
      (initHandlers, some
        "zero_cb() missing 2 required positional arguments: \x27slack\x27 and \x27event\x27") ∧
    handle initHandlers "message" none ⟨"one_cb", ["event"]⟩ =
      (initHandlers, some
        "one_cb(event) missing 1 required positional argument: \x27event\x27") ∧
    (handle initHandlers "message" none cbStar).2 = none ∧
    ((handle initHandlers "message" none cbStar).1).getD "message" =
      initHandlers.getD "message" ++ [(cbStar, kwargsOr none)] := by
  refine ⟨?_, ?_, (C6_handle_arity.2.2 initHandlers "message" none cbStar
    (by decide)).1, (C6_handle_arity.2.2 initHandlers "message" none cbStar
    (by decide)).2.1⟩
  · exact C6_handle_arity.1 initHandlers "message" none ⟨"zero_cb", []⟩ rfl
  · exact C6_handle_arity.2.1 initHandlers "message" none
      ⟨"one_cb", ["event"]⟩ "event" rfl

/-- C10: registration is atomic on error: when the callback accepts fewer
than two parameters, handle raises before anything is appended, so the
registry state observed at the raise is exactly the registry state before
the call, and an error is reported. -/
theorem C10_registration_atomic (h : Handlers) (t : String)
    (k : Option Kwargs) (fn : Callback) (hlt : fn.params.length < 2) :
    (handle h t k fn).1 = h ∧ (handle h t k fn).2 ≠ none := by
  simp [handle, hlt]

/-- Witness for C10_registration_atomic: a zero-parameter callback against a
registry holding one registration. -/
theorem C10_registration_atomic_witness :
    (handle ⟨[("message", [(cbHello, [])])]⟩ "message" none
      ⟨"noop", []⟩).1 = ⟨[("message", [(cbHello, [])])]⟩ ∧
    (handle ⟨[("message", [(cbHello, [])])]⟩ "message" none
      ⟨"noop", []⟩).2 ≠ none :=
  C10_registration_atomic ⟨[("message", [(cbHello, [])])]⟩ "message" none
    ⟨"noop", []⟩ (by decide)

/-- C5: two handlers registered in order for the same type are stored in
registration order, and for an event of that type the first is invoked
strictly before the second: writing n for the number of handlers already
registered for that type, they occupy consecutive positions n and n + 1 of
the invocation sequence produced by dispatch. -/
theorem C5_same_type_order (h : Handlers) (t : String) (fn1 fn2 : Callback)
    (k1 k2 : Option Kwargs) (hp1 : 2 ≤ fn1.params.length)
    (hp2 : 2 ≤ fn2.params.length) :
    ∃ hMid hFin : Handlers,
      handle h t k1 fn1 = (hMid, none) ∧
      handle hMid t k2 fn2 = (hFin, none) ∧
      hFin.getD t = h.getD t ++ [(fn1, kwargsOr k1), (fn2, kwargsOr k2)] ∧
      ((dispatchEvent hFin t).2)[(h.getD t).length]? =
        some (fn1, kwargsOr k1) ∧
      ((dispatchEvent hFin t).2)[(h.getD t).length + 1]? =
        some (fn2, kwargsOr k2) := by
  refine ⟨⟨appendAt h.entries t (fn1, kwargsOr k1)⟩,
    ⟨appendAt (appendAt h.entries t (fn1, kwargsOr k1)) t
      (fn2, kwargsOr k2)⟩,
    handle_success h t k1 fn1 hp1, handle_success _ t k2 fn2 hp2, ?_, ?_, ?_⟩
  all_goals
    have hmid : Handlers.getD ⟨appendAt h.entries t (fn1, kwargsOr k1)⟩ t =
        h.getD t ++ [(fn1, kwargsOr k1)] := getD_appendAt_self h t _
  all_goals
    have hfin : Handlers.getD ⟨appendAt (appendAt h.entries t
        (fn1, kwargsOr k1)) t (fn2, kwargsOr k2)⟩ t =
        h.getD t ++ [(fn1, kwargsOr k1), (fn2, kwargsOr k2)] := by
      have := getD_appendAt_self ⟨appendAt h.entries t (fn1, kwargsOr k1)⟩
        t (fn2, kwargsOr k2)
      rw [hmid, List.append_assoc] at this
      exact this
  · exact hfin
  · rw [dispatchEvent_snd, List.getElem?_append_left, hfin,
      List.getElem?_append_right (Nat.le_refl _)]
    · simp
    · rw [hfin]
      simp
  · rw [dispatchEvent_snd, List.getElem?_append_left, hfin,
      List.getElem?_append_right (by simp)]
    · simp
    · rw [hfin]
      simp

/-- Witness for C5_same_type_order: two concrete two-parameter handlers
registered for the message type against the empty registry. -/
theorem C5_same_type_order_witness :
    ∃ hMid hFin : Handlers,
      handle initHandlers "message" none cbHello = (hMid, none) ∧
      handle hMid "message" none cbStar = (hFin, none) ∧
      hFin.getD "message" = initHandlers.getD "message" ++
        [(cbHello, kwargsOr none), (cbStar, kwargsOr none)] ∧
      ((dispatchEvent hFin "message").2)[
        (initHandlers.getD "message").length]? =
        some (cbHello, kwargsOr none) ∧
      ((dispatchEvent hFin "message").2)[
        (initHandlers.getD "message").length + 1]? =
        some (cbStar, kwargsOr none) :=
  C5_same_type_order initHandlers "message" cbHello cbStar none none
    (by decide) (by decide)

/-- C7: resolving an empty-string token raises MissingSlackToken naming the
empty string as invalid; resolving an environment variable connector whose
variable is unset or empty raises MissingSlackToken naming that variable; a
non-empty token and a set, non-empty environment variable both resolve to a
client holding the token without raising. -/
theorem C7_connector_resolution (env : String → Option String)
    (name t : String) :
    (create_slack env (Connector.token "") =
      CreateResult.missingSlackToken
        "The empty string is an invalid Slack API token") ∧
    (env name = none →
      create_slack env (Connector.envVar name) =
        CreateResult.missingSlackToken
          ("Could not acquire token from " ++ name)) ∧
    (env name = some "" →
      create_slack env (Connector.envVar name) =
        CreateResult.missingSlackToken
          ("Could not acquire token from " ++ name)) ∧
    (t ≠ "" → create_slack env (Connector.token t) =
      CreateResult.client ⟨t⟩) ∧
    (env name = some t → t ≠ "" →
      create_slack env (Connector.envVar name) =
        CreateResult.client ⟨t⟩) := by
  refine ⟨rfl, fun hn => ?_, fun hn => ?_, fun ht => ?_, fun hn ht => ?_⟩
  · simp [create_slack, hn]
  · simp [create_slack, hn]
  · simp [create_slack, ht]
  · simp [create_slack, hn, ht]

/-- Witness for C7_connector_resolution against a concrete environment in
which the canonical variable is set to a token and another is unset. -/
theorem C7_connector_resolution_witness :
    ((fun n => if n = "SLACK_API_TOKEN" then some "xoxb-token" else none)
        "UNSET_VAR" = none →
      create_slack
        (fun n => if n = "SLACK_API_TOKEN" then some "xoxb-token" else none)
        (Connector.envVar "UNSET_VAR") =
        CreateResult.missingSlackToken
          ("Could not acquire token from " ++ "UNSET_VAR")) ∧
    ((fun n => if n = "SLACK_API_TOKEN" then some "xoxb-token" else none)
        "SLACK_API_TOKEN" = some "xoxb-token" → "xoxb-token" ≠ "" →
      create_slack
        (fun n => if n = "SLACK_API_TOKEN" then some "xoxb-token" else none)
        (Connector.envVar "SLACK_API_TOKEN") =
        CreateResult.client ⟨"xoxb-token"⟩) ∧
    create_slack
      (fun n => if n = "SLACK_API_TOKEN" then some "xoxb-token" else none)
      (Connector.token "") =
      CreateResult.missingSlackToken
        "The empty string is an invalid Slack API token" :=
  ⟨(C7_connector_resolution
      (fun n => if n = "SLACK_API_TOKEN" then some "xoxb-token" else none)
      "UNSET_VAR" "xoxb-token").2.1,
   (C7_connector_resolution
      (fun n => if n = "SLACK_API_TOKEN" then some "xoxb-token" else none)
      "SLACK_API_TOKEN" "xoxb-token").2.2.2.2,
   (C7_connector_resolution
      (fun n => if n = "SLACK_API_TOKEN" then some "xoxb-token" else none)
      "SLACK_API_TOKEN" "xoxb-token").1⟩

/-- C8: the default backoff computes min(2 ^ retry + jitter, 64000) / 1000
seconds in integer milliseconds; with zero jitter backoff(0) is one
millisecond and backoff(16) and backoff(17) both reach the 64-second cap,
below which the growth is exactly exponential, and the cap bounds the
backoff for every retry and every admissible jitter below 1000. -/
theorem C8_truncated_exponential :
    truncated_exponential 0 0 = 1 / 1000 ∧
    truncated_exponential 16 0 = 64 ∧
    truncated_exponential 17 0 = 64 ∧
    (∀ r, r < 16 → truncated_exponential r 0 =
      ((2 ^ r : Nat) : ℚ) / 1000) ∧
    (∀ r j, j ≤ 999 → truncated_exponential r j ≤ 64) := by
  refine ⟨by norm_num [truncated_exponential],
    by norm_num [truncated_exponential],
    by norm_num [truncated_exponential], fun r hr => ?_, fun r j hj => ?_⟩
  · have hpow : 2 ^ r + 0 ≤ 64000 := by
      have : 2 ^ r ≤ 2 ^ 15 := Nat.pow_le_pow_right (by norm_num) (by omega)
      omega
    rw [truncated_exponential, min_eq_left hpow]
    norm_num
  · have hmin : (min (2 ^ r + j) 64000 : Nat) ≤ 64000 := min_le_right _ _
    have hcast : ((min (2 ^ r + j) 64000 : Nat) : ℚ) ≤ 64000 := by
      exact_mod_cast hmin
    rw [truncated_exponential]
    calc ((min (2 ^ r + j) 64000 : Nat) : ℚ) / 1000 ≤ 64000 / 1000 := by
          exact div_le_div_of_nonneg_right hcast (by norm_num)
      _ = 64 := by norm_num

/-- Witness for C8_truncated_exponential: the cap bound at retry 20 with the
maximum jitter and the exact exponential value at retry 3 with zero
jitter. -/
theorem C8_truncated_exponential_witness :
    truncated_exponential 20 999 ≤ 64 ∧
    truncated_exponential 3 0 = ((2 ^ 3 : Nat) : ℚ) / 1000 :=
  ⟨C8_truncated_exponential.2.2.2.2 20 999 (by norm_num),
   C8_truncated_exponential.2.2.2.1 3 (by norm_num)⟩

end Layabout
